import Mathlib

/-!
Verification of the compounding projection engine of
`src/server/src/index.ts` (polarminds.wealth.metrics).

The TypeScript source is shallowly embedded below:
* monetary values and annual returns are exact rationals (the source uses
  IEEE doubles; the spec claims no precision guarantees beyond that, and all
  claims here are about the exact arithmetic the code describes);
* calendar dates are (year, 0-based month, day) triples at day granularity,
  matching `getFullYear` / `getMonth` / the UTC date portion of parsed ISO
  strings;
* JavaScript object literals keyed by strings or years become association
  lists looked up with `alookup`;
* the `x || y` idiom on numbers (falsy 0 falls through) is `lookupOr` /
  `orElseNum`;
* `Math.round(x * 100) / 100` is `round2`, and `toFixed(2)` applied to a
  percentage is `toFixed2` (numeric content of the formatted string,
  half-up ties).
-/

/-- Calendar date at day granularity. `month` is 0-based (JS `getMonth`). -/
structure SimDate where
  year : Nat
  month : Nat
  day : Nat
deriving DecidableEq, Repr

/-- Total order key on dates, mirroring millisecond comparison of midnight
UTC timestamps for day-granularity dates (days are < 32, months < 12). -/
def dateKey (d : SimDate) : Nat := (d.year * 12 + d.month) * 32 + d.day

/-- Index of a calendar month on the infinite month axis (`12*year + month`),
used to compare the cursor `(currentYear, currentMonth)` with the end month. -/
def monthIndex (d : SimDate) : Nat := 12 * d.year + d.month

inductive TxType where
  | deposit
  | withdrawal
deriving DecidableEq, Repr

/-- A validated transaction as delivered to the engine
(`validTransactions` element). -/
structure Transaction where
  date : SimDate
  amount : ℚ
  ttype : TxType
deriving DecidableEq, Repr

/-- Association-list lookup, embedding JS object property access
`obj[key]` (→ `some value` or `none` for `undefined`). -/
def alookup {α β : Type} [DecidableEq α] (k : α) : List (α × β) → Option β
  | [] => none
  | (a, b) :: rest => if a = k then some b else alookup k rest

/-- `tbl[y] || dflt`: the table value unless absent or falsy (0). -/
def lookupOr (tbl : List (Nat × ℚ)) (dflt : ℚ) (y : Nat) : ℚ :=
  match alookup y tbl with
  | some r => if r = 0 then dflt else r
  | none => dflt

/-- `Math.round(x * 100) / 100` (JS `Math.round` rounds half toward +∞). -/
def round2 (x : ℚ) : ℚ := (⌊x * 100 + 1 / 2⌋ : ℚ) / 100

/-- Numeric content of `x.toFixed(2)` (2-decimal rounding, half up). -/
def toFixed2 (x : ℚ) : ℚ := (⌊x * 100 + 1 / 2⌋ : ℚ) / 100

/-!  Historical return tables.  The engine
(`calculateCompoundInterestWithDates`) and the market-data responder
(`generateRealisticMarketData`) embed separate copies of these tables; the
per-year rows they share are numerically identical in the source, so each
row is transcribed once and referenced from both keyed maps below (the key
sets of the two maps differ, exactly as in the source). -/

def sp500Pairs : List (Nat × ℚ) :=
  [(1990, 310/10000), (1991, 3047/10000), (1992, 762/10000), (1993, 1008/10000),
   (1994, 132/10000), (1995, 3758/10000), (1996, 2296/10000), (1997, 3336/10000),
   (1998, 2858/10000), (1999, 2104/10000), (2000, -910/10000), (2001, -1189/10000),
   (2002, -2210/10000), (2003, 2868/10000), (2004, 1088/10000), (2005, 491/10000),
   (2006, 1579/10000), (2007, 549/10000), (2008, -3700/10000), (2009, 2646/10000),
   (2010, 1506/10000), (2011, 211/10000), (2012, 1600/10000), (2013, 3239/10000),
   (2014, 1369/10000), (2015, 138/10000), (2016, 1196/10000), (2017, 2183/10000),
   (2018, -438/10000), (2019, 3157/10000), (2020, 1640/10000), (2021, 2689/10000),
   (2022, -1954/10000), (2023, 2411/10000), (2024, 1200/10000)]

def dowPairs : List (Nat × ℚ) :=
  [(1990, 404/10000), (1991, 2014/10000), (1992, 421/10000), (1993, 1372/10000),
   (1994, 213/10000), (1995, 3336/10000), (1996, 2615/10000), (1997, 2275/10000),
   (1998, 1611/10000), (1999, 2725/10000), (2000, -618/10000), (2001, -715/10000),
   (2002, -1693/10000), (2003, 2514/10000), (2004, 317/10000), (2005, -61/10000),
   (2006, 1606/10000), (2007, 626/10000), (2008, -3394/10000), (2009, 1876/10000),
   (2010, 1102/10000), (2011, 554/10000), (2012, 726/10000), (2013, 2654/10000),
   (2014, 751/10000), (2015, -234/10000), (2016, 1342/10000), (2017, 2517/10000),
   (2018, -587/10000), (2019, 2234/10000), (2020, 725/10000), (2021, 1885/10000),
   (2022, -856/10000), (2023, 1397/10000), (2024, 950/10000)]

def nasdaqPairs : List (Nat × ℚ) :=
  [(1990, -1746/10000), (1991, 5648/10000), (1992, 1561/10000), (1993, 1456/10000),
   (1994, -318/10000), (1995, 3963/10000), (1996, 2267/10000), (1997, 2144/10000),
   (1998, 3969/10000), (1999, 8550/10000), (2000, -3910/10000), (2001, -2102/10000),
   (2002, -3155/10000), (2003, 5015/10000), (2004, 885/10000), (2005, 135/10000),
   (2006, 956/10000), (2007, 975/10000), (2008, -4018/10000), (2009, 4338/10000),
   (2010, 1694/10000), (2011, -180/10000), (2012, 1574/10000), (2013, 3848/10000),
   (2014, 1351/10000), (2015, 559/10000), (2016, 739/10000), (2017, 2836/10000),
   (2018, -356/10000), (2019, 3556/10000), (2020, 4391/10000), (2021, 2103/10000),
   (2022, -3256/10000), (2023, 4381/10000), (2024, 1150/10000)]

def russell2000Pairs : List (Nat × ℚ) :=
  [(1990, -1949/10000), (1991, 4621/10000), (1992, 1835/10000), (1993, 2109/10000),
   (1994, -185/10000), (1995, 2875/10000), (1996, 1643/10000), (1997, 2236/10000),
   (1998, -251/10000), (1999, 2123/10000), (2000, -303/10000), (2001, 249/10000),
   (2002, -2044/10000), (2003, 4741/10000), (2004, 1825/10000), (2005, 484/10000),
   (2006, 1837/10000), (2007, -157/10000), (2008, -3349/10000), (2009, 2746/10000),
   (2010, 2688/10000), (2011, -412/10000), (2012, 1609/10000), (2013, 3870/10000),
   (2014, 489/10000), (2015, -441/10000), (2016, 2123/10000), (2017, 1449/10000),
   (2018, -1151/10000), (2019, 2517/10000), (2020, 1994/10000), (2021, 1462/10000),
   (2022, -2044/10000), (2023, 1665/10000), (2024, 920/10000)]

def ftse100Pairs : List (Nat × ℚ) :=
  [(1990, -935/10000), (1991, 1634/10000), (1992, 1985/10000), (1993, 2834/10000),
   (1994, -954/10000), (1995, 2034/10000), (1996, 1185/10000), (1997, 2485/10000),
   (1998, 1434/10000), (1999, 1785/10000), (2000, -1034/10000), (2001, -1385/10000),
   (2002, -2485/10000), (2003, 1385/10000), (2004, 785/10000), (2005, 1634/10000),
   (2006, 1034/10000), (2007, 385/10000), (2008, -3134/10000), (2009, 2234/10000),
   (2010, 934/10000), (2011, -585/10000), (2012, 585/10000), (2013, 1434/10000),
   (2014, -234/10000), (2015, -485/10000), (2016, 1434/10000), (2017, 734/10000),
   (2018, -1234/10000), (2019, 1234/10000), (2020, -1434/10000), (2021, 1434/10000),
   (2022, 34/10000), (2023, 384/10000), (2024, 750/10000)]

def nikkei225Pairs : List (Nat × ℚ) :=
  [(1990, -3834/10000), (1991, 434/10000), (1992, -2634/10000), (1993, 334/10000),
   (1994, 1334/10000), (1995, -134/10000), (1996, -334/10000), (1997, -2134/10000),
   (1998, -934/10000), (1999, 3634/10000), (2000, -2734/10000), (2001, -2334/10000),
   (2002, -1834/10000), (2003, 2434/10000), (2004, 734/10000), (2005, 4034/10000),
   (2006, 634/10000), (2007, -1134/10000), (2008, -4234/10000), (2009, 1934/10000),
   (2010, -334/10000), (2011, -1734/10000), (2012, 2284/10000), (2013, 5684/10000),
   (2014, -834/10000), (2015, 934/10000), (2016, -234/10000), (2017, 1934/10000),
   (2018, -1234/10000), (2019, 1834/10000), (2020, 1634/10000), (2021, 434/10000),
   (2022, -934/10000), (2023, 2834/10000), (2024, 950/10000)]

/-- `MARKET_INDICES[key].averageReturn`, in source object-literal order.
(The per-index 2020–2024 display rows of `MARKET_INDICES.historicalData`
feed only HTTP metadata endpoints and are not part of any claim.) -/
def marketIndicesAvg : List (String × ℚ) :=
  [("sp500", 1000/10000), ("nasdaq", 1150/10000), ("dow", 950/10000),
   ("russell2000", 920/10000), ("ftse100", 750/10000), ("nikkei225", 850/10000)]

/-- The keys recognized by the HTTP layer (`MARKET_INDICES[index]` truthy). -/
def recognizedIndex (idx : String) : Bool := (alookup idx marketIndicesAvg).isSome

/-- `allHistoricalReturns` inside `calculateCompoundInterestWithDates`:
note the key `"dowjones"` (not `"dow"`) and the absence of `"ftse100"` and
`"nikkei225"`, exactly as in the source. -/
def engineTables : List (String × List (Nat × ℚ)) :=
  [("sp500", sp500Pairs), ("dowjones", dowPairs), ("nasdaq", nasdaqPairs),
   ("russell2000", russell2000Pairs)]

/-- `historicalReturns = allHistoricalReturns[marketIndex] || allHistoricalReturns.sp500`. -/
def engineTableFor (marketIndex : String) : List (Nat × ℚ) :=
  (alookup marketIndex engineTables).getD sp500Pairs

/-- `defaultReturn = MARKET_INDICES[marketIndex]?.averageReturn || MARKET_INDICES.sp500.averageReturn`
(the `||` falls through on a falsy 0, kept literally). -/
def engineDefaultFor (marketIndex : String) : ℚ :=
  match alookup marketIndex marketIndicesAvg with
  | some a => if a = 0 then 1000/10000 else a
  | none => 1000/10000

/-- `const annualReturn = historicalReturns[currentYear] || defaultReturn`. -/
def annualReturnUsed (marketIndex : String) (year : Nat) : ℚ :=
  lookupOr (engineTableFor marketIndex) (engineDefaultFor marketIndex) year

/-! The compounding engine `calculateCompoundInterestWithDates`. -/

/-- The mutable accumulators of the monthly walk. -/
structure WalkState where
  currentAmount : ℚ
  totalContributions : ℚ
  totalDeposits : ℚ
  totalWithdrawals : ℚ
deriving DecidableEq, Repr

/-- One element of `monthlyData` (string-formatted fields kept numeric:
`amount` etc. are the 2-decimal rounded values, `annualReturn` is the raw
rate whose percentage the source formats with `toFixed(2)`). -/
structure MonthlyDataPoint where
  month : Nat
  year : Nat
  monthOfYear : Nat
  amount : ℚ
  contributions : ℚ
  netInvestment : ℚ
  gains : ℚ
  annualReturn : ℚ
deriving DecidableEq, Repr

/-- One element of `yearlyData`. -/
structure YearlyDataPoint where
  year : Nat
  amount : ℚ
  contributions : ℚ
  netInvestment : ℚ
  gains : ℚ
  roi : ℚ
  annualReturn : ℚ
deriving DecidableEq, Repr

/-- The `summary` object of a `CalculationResult`.
`averageAnnualReturn` carries the numeric content of the formatted
percentage string; `startDate` / `endDate` the normalized range. -/
structure Summary where
  finalAmount : ℚ
  totalContributions : ℚ
  totalGains : ℚ
  totalROI : ℚ
  totalDeposits : ℚ
  totalWithdrawals : ℚ
  netInvestment : ℚ
  netGains : ℚ
  netROI : ℚ
  averageAnnualReturn : ℚ
  startDate : SimDate
  endDate : SimDate
  totalMonths : Nat
deriving DecidableEq, Repr

structure CalculationResult where
  summary : Summary
  monthlyData : List MonthlyDataPoint
  yearlyData : List YearlyDataPoint
deriving DecidableEq, Repr

/-- Application of one in-month transaction (engine loop body, lines
419–429): a deposit adds to the three running totals, a withdrawal
subtracts `min(transaction.amount, max(0, currentAmount))` and records
exactly that clamped amount. -/
def applyTx (s : WalkState) (t : Transaction) : WalkState :=
  match t.ttype with
  | .deposit =>
      { s with currentAmount := s.currentAmount + t.amount,
               totalContributions := s.totalContributions + t.amount,
               totalDeposits := s.totalDeposits + t.amount }
  | .withdrawal =>
      let w := min t.amount (max 0 s.currentAmount)
      { s with currentAmount := s.currentAmount - w,
               totalWithdrawals := s.totalWithdrawals + w }

/-- The inner `while (transactionIndex < sortedTransactions.length)` loop
for cursor month `(y, m)`: a transaction in the cursor month is applied and
the pointer advances; a transaction dated after the cursor month's first
day stops the scan; otherwise (a past-due transaction) the pointer advances
WITHOUT applying it.  Returns the updated state and the remaining
(unconsumed) suffix of the sorted list. -/
def consumeMonth (y m : Nat) : WalkState → List Transaction → WalkState × List Transaction
  | s, [] => (s, [])
  | s, t :: rest =>
      if t.date.year = y ∧ t.date.month = m then
        consumeMonth y m (applyTx s t) rest
      else if dateKey ⟨y, m, 1⟩ < dateKey t.date then
        (s, t :: rest)
      else
        consumeMonth y m s rest

/-- The monthly walk (outer `while` loop, lines 401–482), by recursion on
the number of remaining months.  `idx` is the cursor month on the month
axis (`12*year + month`), `cnt` the running `totalMonths` counter.
Returns `(monthlyData, yearlyData, final state)`. -/
def runWalk (marketIndex : String) :
    Nat → Nat → Nat → WalkState → List Transaction →
    List MonthlyDataPoint × List YearlyDataPoint × WalkState
  | 0, _, _, s, _ => ([], [], s)
  | n + 1, idx, cnt, s, txs =>
      let y := idx / 12
      let m := idx % 12
      let annualReturn := annualReturnUsed marketIndex y
      let monthlyReturn := annualReturn / 12
      let step := consumeMonth y m s txs
      let s1 := step.1
      let txs1 := step.2
      let s2 := { s1 with currentAmount := s1.currentAmount * (1 + monthlyReturn) }
      let mrec : MonthlyDataPoint :=
        { month := cnt + 1, year := y, monthOfYear := m + 1,
          amount := round2 s2.currentAmount,
          contributions := round2 s2.totalContributions,
          netInvestment := round2 (s2.totalDeposits - s2.totalWithdrawals),
          gains := round2 (s2.currentAmount - s2.totalContributions),
          annualReturn := annualReturn }
      let yrecs : List YearlyDataPoint :=
        if m = 11 then
          [{ year := y,
             amount := round2 s2.currentAmount,
             contributions := round2 s2.totalContributions,
             netInvestment := round2 (s2.totalDeposits - s2.totalWithdrawals),
             gains := round2 (s2.currentAmount - s2.totalContributions),
             roi := round2 (if (0 : ℚ) < s2.totalContributions then
                 (s2.currentAmount - s2.totalContributions) / s2.totalContributions * 100
               else 0),
             annualReturn := annualReturn }]
        else []
      let rest := runWalk marketIndex n (idx + 1) (cnt + 1) s2 txs1
      (mrec :: rest.1, yrecs ++ rest.2.1, rest.2.2)

/-- The state after one iteration of the outer loop at cursor `idx`
(consume the month's transactions, then apply growth); definitionally the
state `runWalk` passes to the next iteration. -/
def monthNewState (mi : String) (idx : Nat) (s : WalkState)
    (txs : List Transaction) : WalkState :=
  let s1 := (consumeMonth (idx / 12) (idx % 12) s txs).1
  { s1 with currentAmount :=
      s1.currentAmount * (1 + annualReturnUsed mi (idx / 12) / 12) }

/-- The unconsumed transaction suffix after one iteration at cursor `idx`. -/
def monthNewTxs (idx : Nat) (s : WalkState) (txs : List Transaction) :
    List Transaction :=
  (consumeMonth (idx / 12) (idx % 12) s txs).2

/-- Stable insertion of a transaction after all entries dated no later
(JS `Array.prototype.sort` is stable; the comparator is date order). -/
def insertTx (t : Transaction) : List Transaction → List Transaction
  | [] => [t]
  | u :: rest =>
      if dateKey u.date ≤ dateKey t.date then u :: insertTx t rest
      else t :: u :: rest

/-- `transactions.sort((a, b) => a.date − b.date)` as a stable sort. -/
def sortTxs (l : List Transaction) : List Transaction :=
  l.foldl (fun acc t => insertTx t acc) []

/-- Number of iterations of the outer loop, whose guard is
`currentYear < end.year || (currentYear == end.year && currentMonth <= end.month)`,
i.e. `monthIndex cursor ≤ monthIndex end`; zero when the end month
precedes the start month. -/
def monthsCount (startDate endDate : SimDate) : Nat :=
  monthIndex endDate + 1 - monthIndex startDate

/-- `Object.keys(historicalReturns)` filtered to `[start.year, end.year]`
(lines 501–503): only the years present in the (already index-resolved)
table survive. -/
def avgYears (marketIndex : String) (startDate endDate : SimDate) : List Nat :=
  ((engineTableFor marketIndex).map Prod.fst).filter
    (fun yy => startDate.year ≤ yy ∧ yy ≤ endDate.year)

/-- Final state of the monthly walk for given engine inputs (raw, unrounded
accumulators that the summary block then rounds). -/
def walkFinalState (principal : ℚ) (transactions : List Transaction)
    (startDate endDate : SimDate) (marketIndex : String) : WalkState :=
  (runWalk marketIndex (monthsCount startDate endDate) (monthIndex startDate) 0
    ⟨principal, principal, principal, 0⟩ (sortTxs transactions)).2.2

/-- `calculateCompoundInterestWithDates` (lines 327–530).  The
`useHistoricalData` flag is accepted and, as in the source, never read. -/
def calculateCompoundInterestWithDates (principal : ℚ)
    (transactions : List Transaction) (startDate endDate : SimDate)
    (useHistoricalData : Bool) (marketIndex : String) : CalculationResult :=
  let sortedTransactions := sortTxs transactions
  let n := monthsCount startDate endDate
  let walk := runWalk marketIndex n (monthIndex startDate) 0
    ⟨principal, principal, principal, 0⟩ sortedTransactions
  let monthlyData := walk.1
  let yearlyData := walk.2.1
  let sf := walk.2.2
  let finalAmount := sf.currentAmount
  let netInvestment := sf.totalDeposits - sf.totalWithdrawals
  let totalGains := finalAmount - sf.totalContributions
  let netGains := finalAmount - netInvestment
  let totalROI := if (0 : ℚ) < sf.totalContributions then
      totalGains / sf.totalContributions * 100 else 0
  let netROI := if netInvestment ≠ 0 then netGains / |netInvestment| * 100 else 0
  let years := avgYears marketIndex startDate endDate
  let avgReturn :=
    (years.map (annualReturnUsed marketIndex)).sum / (years.length : ℚ)
  { summary :=
      { finalAmount := round2 finalAmount,
        totalContributions := round2 sf.totalContributions,
        totalGains := round2 totalGains,
        totalROI := round2 totalROI,
        totalDeposits := round2 sf.totalDeposits,
        totalWithdrawals := round2 sf.totalWithdrawals,
        netInvestment := round2 netInvestment,
        netGains := round2 netGains,
        netROI := round2 netROI,
        averageAnnualReturn := toFixed2 (avgReturn * 100),
        startDate := startDate,
        endDate := endDate,
        totalMonths := n },
    monthlyData := monthlyData,
    yearlyData := yearlyData }

/-! The market-data responder `generateRealisticMarketData` (lines 228–325). -/

/-- The responder's own `historicalReturns` copy: six keys, with `"dow"`
(unlike the engine's `"dowjones"`) plus `"ftse100"` and `"nikkei225"`. -/
def responderTables : List (String × List (Nat × ℚ)) :=
  [("sp500", sp500Pairs), ("dow", dowPairs), ("nasdaq", nasdaqPairs),
   ("russell2000", russell2000Pairs), ("ftse100", ftse100Pairs),
   ("nikkei225", nikkei225Pairs)]

/-- `const indexReturns = historicalReturns[index]`.  The source has no
fallback here; an unrecognized index never reaches this function (the
route returns 400 first), so the `getD []` default is unreachable under
the recognized-index hypothesis used by the theorems. -/
def responderTableFor (index : String) : List (Nat × ℚ) :=
  (alookup index responderTables).getD []

/-- `const defaultReturn = MARKET_INDICES[index].averageReturn`
(again only evaluated for recognized indices). -/
def responderDefaultFor (index : String) : ℚ :=
  (alookup index marketIndicesAvg).getD 0

/-- One pushed element of the responder's `data` array: year, annual
return (table value or default via `||`), formatted percentage, and the
fixed `-12-31` date suffix of `` `${currentYear}-12-31` ``. -/
structure MarketEntry where
  year : Nat
  ret : ℚ
  retPct : ℚ
  dateMonth : Nat
  dateDay : Nat
deriving DecidableEq, Repr

def marketEntry (index : String) (y : Nat) : MarketEntry :=
  let annualReturn := lookupOr (responderTableFor index) (responderDefaultFor index) y
  { year := y, ret := annualReturn, retPct := toFixed2 (annualReturn * 100),
    dateMonth := 12, dateDay := 31 }

/-- `while (currentYear <= endYear) { data.push(...); currentYear++ }`,
by recursion on the number of remaining years. -/
def marketLoop (index : String) : Nat → Nat → List MarketEntry
  | _, 0 => []
  | y, n + 1 => marketEntry index y :: marketLoop index (y + 1) n

/-- The responder's reply (fields relevant to the claims; the date range is
represented by its start and end calendar years, which is all the loop
reads from the parsed dates). -/
structure MarketDataResponse where
  index : String
  averageReturn : ℚ
  historicalData : List MarketEntry
  periodStartYear : Nat
  periodEndYear : Nat
deriving DecidableEq, Repr

def generateRealisticMarketData (index : String) (startYear endYear : Nat) :
    MarketDataResponse :=
  let data := marketLoop index startYear (endYear + 1 - startYear)
  let averageReturn := (data.map MarketEntry.ret).sum / (data.length : ℚ)
  { index := index, averageReturn := averageReturn, historicalData := data,
    periodStartYear := startYear, periodEndYear := endYear }

/-! The upstream transaction validation filter (route handler lines
203–210): `transactions.filter(t => t && t.date && t.amount && t.type &&
(t.type === 'deposit' || t.type === 'withdrawal') &&
!isNaN(parseFloat(t.amount.toString()))).map(t => ({...t, amount:
parseFloat(t.amount.toString())}))`. -/

/-- The `amount` field of a raw request transaction: a JS number, a string
whose `parseFloat` yields a number, or a string `parseFloat` cannot parse
(`NaN`).  Truthiness: the number 0 is falsy, nonempty strings are truthy
(the empty string is both falsy and unparsable, so it behaves as
`strBad`). -/
inductive JSAmount where
  | num (q : ℚ)
  | strNum (q : ℚ)
  | strBad
deriving DecidableEq, Repr

def JSAmount.truthy : JSAmount → Bool
  | .num q => q != 0
  | .strNum _ => true
  | .strBad => true

/-- `parseFloat(amount.toString())`, `none` when the result is `NaN`. -/
def JSAmount.parsed : JSAmount → Option ℚ
  | .num q => some q
  | .strNum q => some q
  | .strBad => none

/-- A transaction as it arrives in the request body; `none` models a
missing (or falsy) field. -/
structure RawTransaction where
  date : Option SimDate
  amount : Option JSAmount
  ttype : Option String
deriving Repr

/-- The filter predicate of `validTransactions`. -/
def passesValidation (t : RawTransaction) : Bool :=
  t.date.isSome &&
  (match t.amount with
   | some a => a.truthy
   | none => false) &&
  (match t.ttype with
   | some ty => ty == "deposit" || ty == "withdrawal"
   | none => false) &&
  (match t.amount with
   | some a => a.parsed.isSome
   | none => false)

def parseTxType (ty : String) : TxType :=
  if ty = "deposit" then .deposit else .withdrawal

/-- `validTransactions`: filter then parse the amount. -/
def validTransactions (raw : List RawTransaction) : List Transaction :=
  (raw.filter passesValidation).filterMap fun t =>
    match t.date, t.amount, t.ttype with
    | some d, some a, some ty => a.parsed.map fun q => ⟨d, q, parseTxType ty⟩
    | _, _, _ => none

/-! Spec-side definitions, used only to compare the code's behaviour with
claim wordings (each is written from the claim's words, not the source). -/

/-- A calendar date with a real month and day-of-month, the domain on which
the spec speaks. -/
def wellFormedDate (d : SimDate) : Prop :=
  d.month < 12 ∧ 1 ≤ d.day ∧ d.day ≤ 31

/-- Claim C3's reading of the per-year lookup: the selected index's own
table entry when the index has a table, with that index's own default for
missing years; when the selected index has no entry in the return table at
all, BOTH the baseline (sp500) table AND the baseline default are
substituted. -/
def specC3AnnualReturn (marketIndex : String) (year : Nat) : ℚ :=
  match alookup marketIndex engineTables with
  | some tbl => lookupOr tbl (engineDefaultFor marketIndex) year
  | none => lookupOr sp500Pairs (engineDefaultFor "sp500") year

/-- The amended per-year lookup: the table and the default fall back
independently — an index absent from the engine's return table borrows the
sp500 TABLE but keeps its OWN `MARKET_INDICES` average as default. -/
def amendedAnnualReturn (marketIndex : String) (year : Nat) : ℚ :=
  match alookup marketIndex engineTables with
  | some tbl => lookupOr tbl (engineDefaultFor marketIndex) year
  | none => lookupOr sp500Pairs (engineDefaultFor marketIndex) year

/-- Claim C4's mean: the per-year return (same lookup as the walk) averaged
over EVERY calendar year in `[startDate.year, endDate.year]` inclusive. -/
def specC4AverageAnnualReturn (marketIndex : String)
    (startDate endDate : SimDate) : ℚ :=
  let years := List.range' startDate.year (endDate.year + 1 - startDate.year)
  (years.map (annualReturnUsed marketIndex)).sum / (years.length : ℚ)

/-! Helper lemmas (shared; none of these is a claim theorem). -/

theorem alookup_mem {α β : Type} [DecidableEq α] {k : α} {v : β} :
    ∀ {l : List (α × β)}, alookup k l = some v → (k, v) ∈ l := by
  intro l
  induction l with
  | nil => intro h; simp [alookup] at h
  | cons p rest ih =>
    intro h
    rcases p with ⟨a, b⟩
    rcases eq_or_ne a k with hak | hak
    · subst hak
      simp [alookup] at h
      subst h
      exact List.mem_cons_self _ _
    · simp only [alookup, if_neg hak] at h
      exact List.mem_cons_of_mem _ (ih h)

theorem engineTableFor_cases (idx : String) :
    engineTableFor idx = sp500Pairs ∨ engineTableFor idx = dowPairs ∨
    engineTableFor idx = nasdaqPairs ∨ engineTableFor idx = russell2000Pairs := by
  unfold engineTableFor
  cases h : alookup idx engineTables with
  | none => simp
  | some tbl =>
    have hm := alookup_mem h
    simp only [engineTables, List.mem_cons, List.not_mem_nil, or_false,
      Prod.mk.injEq] at hm
    rcases hm with ⟨-, rfl⟩ | ⟨-, rfl⟩ | ⟨-, rfl⟩ | ⟨-, rfl⟩ <;> simp

theorem engineTableFor_keys (idx : String) :
    (engineTableFor idx).map Prod.fst = List.range' 1990 35 := by
  rcases engineTableFor_cases idx with h | h | h | h <;> rw [h] <;> decide

theorem engineDefaultFor_ge (idx : String) : (-12 : ℚ) ≤ engineDefaultFor idx := by
  unfold engineDefaultFor
  cases h : alookup idx marketIndicesAvg with
  | none => norm_num
  | some a =>
    have hm := alookup_mem h
    simp only [marketIndicesAvg, List.mem_cons, List.not_mem_nil, or_false,
      Prod.mk.injEq] at hm
    rcases hm with ⟨-, rfl⟩ | ⟨-, rfl⟩ | ⟨-, rfl⟩ | ⟨-, rfl⟩ | ⟨-, rfl⟩ | ⟨-, rfl⟩ <;>
      norm_num

theorem engineTable_values_ge (idx : String) :
    ∀ p ∈ engineTableFor idx, (-12 : ℚ) ≤ p.2 := by
  rcases engineTableFor_cases idx with h | h | h | h <;> rw [h] <;>
    intro p hp <;> fin_cases hp <;> norm_num

theorem annualReturnUsed_ge (idx : String) (y : Nat) :
    (-12 : ℚ) ≤ annualReturnUsed idx y := by
  unfold annualReturnUsed lookupOr
  cases h : alookup y (engineTableFor idx) with
  | none => exact engineDefaultFor_ge idx
  | some r =>
    have hb := engineTable_values_ge idx _ (alookup_mem h)
    by_cases hr : r = 0
    · simp only [hr, if_pos rfl]
      exact engineDefaultFor_ge idx
    · simp only [if_neg hr]
      exact hb

theorem growthFactor_nonneg (idx : String) (y : Nat) :
    (0 : ℚ) ≤ 1 + annualReturnUsed idx y / 12 := by
  have := annualReturnUsed_ge idx y
  linarith

theorem applyTx_nonneg (s : WalkState) (t : Transaction)
    (hc : 0 ≤ s.currentAmount) (ha : 0 ≤ t.amount) :
    0 ≤ (applyTx s t).currentAmount := by
  cases h : t.ttype with
  | deposit => simp only [applyTx, h]; positivity
  | withdrawal =>
    simp only [applyTx, h]
    have h1 : min t.amount (max 0 s.currentAmount) ≤ max 0 s.currentAmount :=
      min_le_right _ _
    have h2 : max 0 s.currentAmount = s.currentAmount := max_eq_right hc
    simp only [sub_nonneg]
    calc min t.amount (max 0 s.currentAmount) ≤ max 0 s.currentAmount := h1
      _ = s.currentAmount := h2

theorem consumeMonth_nonneg (y m : Nat) :
    ∀ (txs : List Transaction) (s : WalkState), (∀ t ∈ txs, 0 ≤ t.amount) →
      0 ≤ s.currentAmount → 0 ≤ (consumeMonth y m s txs).1.currentAmount := by
  intro txs
  induction txs with
  | nil => intro s _ hc; exact hc
  | cons t rest ih =>
    intro s ha hc
    have hat : 0 ≤ t.amount := ha t (List.mem_cons_self _ _)
    have harest : ∀ u ∈ rest, 0 ≤ u.amount :=
      fun u hu => ha u (List.mem_cons_of_mem _ hu)
    simp only [consumeMonth]
    split
    · exact ih (applyTx s t) harest (applyTx_nonneg s t hc hat)
    · split
      · exact hc
      · exact ih s harest hc

theorem consumeMonth_rest_mem (y m : Nat) :
    ∀ (txs : List Transaction) (s : WalkState),
      ∀ t ∈ (consumeMonth y m s txs).2, t ∈ txs := by
  intro txs
  induction txs with
  | nil => intro s t ht; simpa [consumeMonth] using ht
  | cons u rest ih =>
    intro s t
    simp only [consumeMonth]
    split
    · intro ht; exact List.mem_cons_of_mem _ (ih (applyTx s u) t ht)
    · split
      · intro ht; exact ht
      · intro ht; exact List.mem_cons_of_mem _ (ih s t ht)

theorem runWalk_monthly_length (mi : String) :
    ∀ (n idx cnt : Nat) (s : WalkState) (txs : List Transaction),
      (runWalk mi n idx cnt s txs).1.length = n := by
  intro n
  induction n with
  | zero => intro idx cnt s txs; rfl
  | succ k ih =>
    intro idx cnt s txs
    simp only [runWalk, List.length_cons]
    rw [ih]

theorem runWalk_final_nonneg (mi : String) :
    ∀ (n idx cnt : Nat) (s : WalkState) (txs : List Transaction),
      0 ≤ s.currentAmount → (∀ t ∈ txs, 0 ≤ t.amount) →
      0 ≤ (runWalk mi n idx cnt s txs).2.2.currentAmount := by
  intro n
  induction n with
  | zero => intro idx cnt s txs hc _; exact hc
  | succ k ih =>
    intro idx cnt s txs hc ha
    simp only [runWalk]
    apply ih
    · have h1 : 0 ≤ (consumeMonth (idx / 12) (idx % 12) s txs).1.currentAmount :=
        consumeMonth_nonneg _ _ txs s ha hc
      have h2 : (0 : ℚ) ≤ 1 + annualReturnUsed mi (idx / 12) / 12 :=
        growthFactor_nonneg mi (idx / 12)
      exact mul_nonneg h1 h2
    · intro t ht
      exact ha t (consumeMonth_rest_mem _ _ txs s t ht)

theorem runWalk_succ_monthly (mi : String) (n idx cnt : Nat) (s : WalkState)
    (txs : List Transaction) :
    (runWalk mi (n + 1) idx cnt s txs).1 =
      { month := cnt + 1, year := idx / 12, monthOfYear := idx % 12 + 1,
        amount := round2 (monthNewState mi idx s txs).currentAmount,
        contributions := round2 (monthNewState mi idx s txs).totalContributions,
        netInvestment := round2 ((monthNewState mi idx s txs).totalDeposits -
          (monthNewState mi idx s txs).totalWithdrawals),
        gains := round2 ((monthNewState mi idx s txs).currentAmount -
          (monthNewState mi idx s txs).totalContributions),
        annualReturn := annualReturnUsed mi (idx / 12) } ::
        (runWalk mi n (idx + 1) (cnt + 1) (monthNewState mi idx s txs)
          (monthNewTxs idx s txs)).1 := rfl

theorem runWalk_succ_final (mi : String) (n idx cnt : Nat) (s : WalkState)
    (txs : List Transaction) :
    (runWalk mi (n + 1) idx cnt s txs).2.2 =
      (runWalk mi n (idx + 1) (cnt + 1) (monthNewState mi idx s txs)
        (monthNewTxs idx s txs)).2.2 := rfl

theorem runWalk_last_amount (mi : String) :
    ∀ (n idx cnt : Nat) (s : WalkState) (txs : List Transaction), 0 < n →
      ((runWalk mi n idx cnt s txs).1.getLast?).map MonthlyDataPoint.amount =
        some (round2 ((runWalk mi n idx cnt s txs).2.2.currentAmount)) := by
  intro n
  induction n with
  | zero => intro idx cnt s txs h; omega
  | succ k ih =>
    intro idx cnt s txs _
    cases k with
    | zero => simp [runWalk]
    | succ j =>
      have hih := ih (idx + 1) (cnt + 1) (monthNewState mi idx s txs)
        (monthNewTxs idx s txs) (Nat.succ_pos j)
      cases hL : (runWalk mi (j + 1) (idx + 1) (cnt + 1)
          (monthNewState mi idx s txs) (monthNewTxs idx s txs)).1 with
      | nil =>
        have hlen := runWalk_monthly_length mi (j + 1) (idx + 1) (cnt + 1)
          (monthNewState mi idx s txs) (monthNewTxs idx s txs)
        rw [hL] at hlen
        simp at hlen
      | cons b L =>
        rw [runWalk_succ_monthly, runWalk_succ_final, hL,
          List.getLast?_cons_cons, ← hL]
        exact hih

theorem avgYears_eq (idx : String) (s e : SimDate)
    (h1 : 1990 ≤ s.year) (h2 : e.year ≤ 2024) (h3 : s.year ≤ e.year) :
    avgYears idx s e = List.range' s.year (e.year + 1 - s.year) := by
  unfold avgYears
  rw [engineTableFor_keys]
  obtain ⟨b, hb⟩ : ∃ b, s.year = 1990 + b := ⟨s.year - 1990, by omega⟩
  obtain ⟨c, hc⟩ : ∃ c, e.year + 1 = s.year + c := ⟨e.year + 1 - s.year, by omega⟩
  obtain ⟨d, hd⟩ : ∃ d, 35 = d + c + b := ⟨35 - b - c, by omega⟩
  rw [hd, ← List.range'_append_1 1990 b (d + c),
    ← List.range'_append_1 (1990 + b) c d]
  rw [List.filter_append, List.filter_append]
  have hA : (List.range' 1990 b).filter
      (fun yy => s.year ≤ yy ∧ yy ≤ e.year) = [] := by
    rw [List.filter_eq_nil_iff]
    intro y hy
    rw [List.mem_range'_1] at hy
    simp only [decide_eq_true_eq, not_and, not_le]
    omega
  have hB : (List.range' (1990 + b) c).filter
      (fun yy => s.year ≤ yy ∧ yy ≤ e.year) = List.range' (1990 + b) c := by
    rw [List.filter_eq_self]
    intro y hy
    rw [List.mem_range'_1] at hy
    simp only [decide_eq_true_eq]
    omega
  have hC : (List.range' (1990 + b + c) d).filter
      (fun yy => s.year ≤ yy ∧ yy ≤ e.year) = [] := by
    rw [List.filter_eq_nil_iff]
    intro y hy
    rw [List.mem_range'_1] at hy
    simp only [decide_eq_true_eq, not_and, not_le]
    omega
  rw [hA, hB, hC]
  simp only [List.nil_append, List.append_nil]
  congr 1 <;> omega

theorem marketLoop_length (idx : String) :
    ∀ (n y : Nat), (marketLoop idx y n).length = n := by
  intro n
  induction n with
  | zero => intro y; rfl
  | succ k ih => intro y; simp only [marketLoop, List.length_cons, ih]

theorem marketLoop_getElem (idx : String) :
    ∀ (n y i : Nat), i < n →
      (marketLoop idx y n)[i]? = some (marketEntry idx (y + i)) := by
  intro n
  induction n with
  | zero => intro y i h; omega
  | succ k ih =>
    intro y i h
    cases i with
    | zero => simp [marketLoop]
    | succ j =>
      have := ih (y + 1) j (by omega)
      simp only [marketLoop, List.getElem?_cons_succ]
      rw [this]
      congr 2
      omega

/-! Claim theorems. -/

/-- C5: for a valid range (well-formed dates with `startDate ≤ endDate`),
`monthlyData.length` equals the inclusive count of calendar months from the
start month to the end month, `summary.investmentPeriod.totalMonths` equals
the same count, and when both dates fall in the same calendar month exactly
one monthly snapshot is produced, regardless of the days of month. -/
theorem claim_C5 (p : ℚ) (txs : List Transaction) (u : Bool) (idx : String)
    (s e : SimDate) (hs : wellFormedDate s) (he : wellFormedDate e)
    (hle : dateKey s ≤ dateKey e) :
    (calculateCompoundInterestWithDates p txs s e u idx).monthlyData.length
        = monthIndex e + 1 - monthIndex s ∧
    (calculateCompoundInterestWithDates p txs s e u idx).summary.totalMonths
        = monthIndex e + 1 - monthIndex s ∧
    (s.year = e.year ∧ s.month = e.month →
      (calculateCompoundInterestWithDates p txs s e u idx).monthlyData.length
        = 1) := by
  obtain ⟨hs1, hs2, hs3⟩ := hs
  obtain ⟨he1, he2, he3⟩ := he
  have hlen : (calculateCompoundInterestWithDates p txs s e u idx).monthlyData.length
      = monthIndex e + 1 - monthIndex s := by
    have hm0 : (calculateCompoundInterestWithDates p txs s e u idx).monthlyData
        = (runWalk idx (monthsCount s e) (monthIndex s) 0
            ⟨p, p, p, 0⟩ (sortTxs txs)).1 := rfl
    rw [hm0, runWalk_monthly_length]
    rfl
  refine ⟨hlen, rfl, fun hsame => ?_⟩
  obtain ⟨hy, hm⟩ := hsame
  rw [hlen]
  unfold monthIndex
  omega

theorem claim_C5_witness :
    (calculateCompoundInterestWithDates 0 [] ⟨2020, 0, 5⟩ ⟨2020, 1, 3⟩
        true "sp500").monthlyData.length
      = monthIndex ⟨2020, 1, 3⟩ + 1 - monthIndex ⟨2020, 0, 5⟩ ∧
    (calculateCompoundInterestWithDates 0 [] ⟨2020, 0, 5⟩ ⟨2020, 1, 3⟩
        true "sp500").summary.totalMonths
      = monthIndex ⟨2020, 1, 3⟩ + 1 - monthIndex ⟨2020, 0, 5⟩ ∧
    ((2020 : Nat) = 2020 ∧ (0 : Nat) = 1 →
      (calculateCompoundInterestWithDates 0 [] ⟨2020, 0, 5⟩ ⟨2020, 1, 3⟩
        true "sp500").monthlyData.length = 1) :=
  claim_C5 0 [] true "sp500" ⟨2020, 0, 5⟩ ⟨2020, 1, 3⟩
    (by exact ⟨by decide, by decide, by decide⟩)
    (by exact ⟨by decide, by decide, by decide⟩) (by decide)

/-- C10: when the end date's calendar month strictly precedes the start
date's month, the engine returns normally: `monthlyData` and `yearlyData`
are empty, `totalMonths` is 0, and `finalAmount` is the rounded principal. -/
theorem claim_C10 (p : ℚ) (txs : List Transaction) (u : Bool) (idx : String)
    (s e : SimDate) (h : monthIndex e < monthIndex s) :
    (calculateCompoundInterestWithDates p txs s e u idx).monthlyData = [] ∧
    (calculateCompoundInterestWithDates p txs s e u idx).yearlyData = [] ∧
    (calculateCompoundInterestWithDates p txs s e u idx).summary.totalMonths
      = 0 ∧
    (calculateCompoundInterestWithDates p txs s e u idx).summary.finalAmount
      = round2 p := by
  have h0 : monthsCount s e = 0 := by unfold monthsCount; omega
  have hm : (calculateCompoundInterestWithDates p txs s e u idx).monthlyData
      = (runWalk idx (monthsCount s e) (monthIndex s) 0
          ⟨p, p, p, 0⟩ (sortTxs txs)).1 := rfl
  have hy : (calculateCompoundInterestWithDates p txs s e u idx).yearlyData
      = (runWalk idx (monthsCount s e) (monthIndex s) 0
          ⟨p, p, p, 0⟩ (sortTxs txs)).2.1 := rfl
  have htm : (calculateCompoundInterestWithDates p txs s e u idx).summary.totalMonths
      = monthsCount s e := rfl
  have hfa : (calculateCompoundInterestWithDates p txs s e u idx).summary.finalAmount
      = round2 ((runWalk idx (monthsCount s e) (monthIndex s) 0
          ⟨p, p, p, 0⟩ (sortTxs txs)).2.2.currentAmount) := rfl
  rw [hm, hy, htm, hfa, h0]
  exact ⟨rfl, rfl, rfl, rfl⟩

theorem claim_C10_witness :
    (calculateCompoundInterestWithDates 250 [] ⟨2021, 0, 1⟩ ⟨2020, 11, 31⟩
        true "sp500").monthlyData = [] ∧
    (calculateCompoundInterestWithDates 250 [] ⟨2021, 0, 1⟩ ⟨2020, 11, 31⟩
        true "sp500").yearlyData = [] ∧
    (calculateCompoundInterestWithDates 250 [] ⟨2021, 0, 1⟩ ⟨2020, 11, 31⟩
        true "sp500").summary.totalMonths = 0 ∧
    (calculateCompoundInterestWithDates 250 [] ⟨2021, 0, 1⟩ ⟨2020, 11, 31⟩
        true "sp500").summary.finalAmount = round2 250 :=
  claim_C10 250 [] true "sp500" ⟨2021, 0, 1⟩ ⟨2020, 11, 31⟩ (by decide)

/-- C1 (counterexample): with `endDate` a full year before `startDate`, the
engine raises no `InvalidRangeError`: it returns a normal, complete
`CalculationResult` (with zero snapshots and the rounded principal), which
refutes the claim that the call fails before producing a result. -/
theorem claim_C1_counterexample :
    (calculateCompoundInterestWithDates 1000 [] ⟨2021, 0, 1⟩ ⟨2020, 0, 1⟩
        true "sp500").monthlyData = [] ∧
    (calculateCompoundInterestWithDates 1000 [] ⟨2021, 0, 1⟩ ⟨2020, 0, 1⟩
        true "sp500").yearlyData = [] ∧
    (calculateCompoundInterestWithDates 1000 [] ⟨2021, 0, 1⟩ ⟨2020, 0, 1⟩
        true "sp500").summary.totalMonths = 0 ∧
    (calculateCompoundInterestWithDates 1000 [] ⟨2021, 0, 1⟩ ⟨2020, 0, 1⟩
        true "sp500").summary.finalAmount = 1000 := by
  refine ⟨rfl, rfl, rfl, ?_⟩
  norm_num [calculateCompoundInterestWithDates, monthsCount, monthIndex,
    runWalk, sortTxs, round2]

/-- C1 (amended): the engine performs no range validation and raises no
errors at all; for an end month strictly before the start month it returns
normally with empty `monthlyData` and `yearlyData` (so the no-partial-result
property holds vacuously: no error is ever raised). -/
theorem claim_C1_amended (p : ℚ) (txs : List Transaction) (u : Bool)
    (idx : String) (s e : SimDate) (h : monthIndex e < monthIndex s) :
    (calculateCompoundInterestWithDates p txs s e u idx).monthlyData = [] ∧
    (calculateCompoundInterestWithDates p txs s e u idx).yearlyData = [] := by
  have h0 : monthsCount s e = 0 := by unfold monthsCount; omega
  have hm : (calculateCompoundInterestWithDates p txs s e u idx).monthlyData
      = (runWalk idx (monthsCount s e) (monthIndex s) 0
          ⟨p, p, p, 0⟩ (sortTxs txs)).1 := rfl
  have hy : (calculateCompoundInterestWithDates p txs s e u idx).yearlyData
      = (runWalk idx (monthsCount s e) (monthIndex s) 0
          ⟨p, p, p, 0⟩ (sortTxs txs)).2.1 := rfl
  rw [hm, hy, h0]
  exact ⟨rfl, rfl⟩

theorem claim_C1_amended_witness :
    (calculateCompoundInterestWithDates 75 [] ⟨2015, 6, 10⟩ ⟨2014, 2, 20⟩
        false "nasdaq").monthlyData = [] ∧
    (calculateCompoundInterestWithDates 75 [] ⟨2015, 6, 10⟩ ⟨2014, 2, 20⟩
        false "nasdaq").yearlyData = [] :=
  claim_C1_amended 75 [] false "nasdaq" ⟨2015, 6, 10⟩ ⟨2014, 2, 20⟩ (by decide)

/-- C2 (counterexample): a deposit dated before the simulation window is
never applied — the walk's totals still equal the bare principal, not
principal + deposit — refuting the claim that past-due transactions are
consumed (applied) at the first opportunity. -/
theorem claim_C2_counterexample :
    (calculateCompoundInterestWithDates 100
        [⟨⟨2020, 0, 15⟩, 50, .deposit⟩] ⟨2020, 2, 1⟩ ⟨2020, 2, 31⟩
        true "sp500").summary.totalDeposits = 100 ∧
    (calculateCompoundInterestWithDates 100
        [⟨⟨2020, 0, 15⟩, 50, .deposit⟩] ⟨2020, 2, 1⟩ ⟨2020, 2, 31⟩
        true "sp500").summary.totalContributions = 100 ∧
    (100 : ℚ) ≠ 150 := by
  refine ⟨?_, ?_, by norm_num⟩ <;>
    norm_num [calculateCompoundInterestWithDates, runWalk, consumeMonth,
      monthsCount, monthIndex, sortTxs, insertTx, applyTx, dateKey,
      annualReturnUsed, lookupOr, alookup, engineTableFor, engineTables,
      engineDefaultFor, marketIndicesAvg, sp500Pairs, round2]

/-- C2 (amended): the inner transaction scan SKIPS a not-yet-consumed
transaction dated in a month strictly before the cursor month: the pointer
advances past it without applying it (deposits are not added, withdrawals
not subtracted), leaving the walk state unchanged. -/
theorem claim_C2_amended (y m : Nat) (s : WalkState) (t : Transaction)
    (rest : List Transaction)
    (h1 : 12 * t.date.year + t.date.month < 12 * y + m)
    (h2 : t.date.day < 32) :
    consumeMonth y m s (t :: rest) = consumeMonth y m s rest := by
  have hne : ¬(t.date.year = y ∧ t.date.month = m) := by omega
  have hlt : ¬(dateKey ⟨y, m, 1⟩ < dateKey t.date) := by
    unfold dateKey
    simp only
    omega
  simp only [consumeMonth, if_neg hne, if_neg hlt]

theorem claim_C2_amended_witness :
    consumeMonth 2020 2 ⟨100, 100, 100, 0⟩
        [⟨⟨2020, 0, 15⟩, 50, .deposit⟩]
      = consumeMonth 2020 2 ⟨100, 100, 100, 0⟩ [] :=
  claim_C2_amended 2020 2 ⟨100, 100, 100, 0⟩ ⟨⟨2020, 0, 15⟩, 50, .deposit⟩ []
    (by decide) (by decide)

/-- C3 (counterexample): for the recognized index `"dow"` (whose key in the
engine's return table is misspelled `"dowjones"`, so the table falls back
to sp500) in a year absent from the sp500 table, the walk uses dow's OWN
default (0.095), not the baseline's (0.10) — refuting the claim that table
and default are substituted together. -/
theorem claim_C3_counterexample :
    annualReturnUsed "dow" 1989 = 19/200 ∧
    specC3AnnualReturn "dow" 1989 = 1/10 ∧
    annualReturnUsed "dow" 1989 ≠ specC3AnnualReturn "dow" 1989 ∧
    ((calculateCompoundInterestWithDates 100 [] ⟨1989, 0, 1⟩ ⟨1989, 0, 31⟩
        true "dow").monthlyData.map MonthlyDataPoint.annualReturn)
      = [19/200] := by
  refine ⟨?_, ?_, ?_, ?_⟩ <;>
  · simp +decide only [annualReturnUsed, specC3AnnualReturn, lookupOr, alookup,
      engineTableFor, engineTables, engineDefaultFor, marketIndicesAvg,
      sp500Pairs, calculateCompoundInterestWithDates, runWalk, consumeMonth,
      monthsCount, monthIndex, sortTxs, List.map, Option.getD, List.foldl]
    norm_num

/-- C3 (amended): in the walk's per-year lookup, the table and the default
fall back independently: `"dow"`, `"ftse100"` and `"nikkei225"` (absent from
the engine's return table) borrow the sp500 TABLE, but each keeps its OWN
`MARKET_INDICES` average as the default used for untabulated years. -/
theorem claim_C3_amended :
    (∀ (idx : String) (y : Nat),
      annualReturnUsed idx y = amendedAnnualReturn idx y) ∧
    engineTableFor "dow" = sp500Pairs ∧
    engineTableFor "ftse100" = sp500Pairs ∧
    engineTableFor "nikkei225" = sp500Pairs ∧
    engineDefaultFor "dow" = 19/200 ∧
    engineDefaultFor "ftse100" = 3/40 ∧
    engineDefaultFor "nikkei225" = 17/200 := by
  refine ⟨?_, rfl, rfl, rfl, ?_, ?_, ?_⟩
  · intro idx y
    unfold annualReturnUsed amendedAnnualReturn engineTableFor
    cases h : alookup idx engineTables <;> simp [h]
  all_goals
    simp +decide only [engineDefaultFor, alookup, marketIndicesAvg]
    norm_num

/-- C4 (counterexample): for the range 1985–1992 the engine averages only
the TABULATED years 1990–1992 (13.73%), while the claim's mean over every
calendar year of the range (defaults included for 1985–1989) is 11.40% —
the two differ, so the claim is false as stated. -/
theorem claim_C4_counterexample :
    (calculateCompoundInterestWithDates 100 [] ⟨1985, 0, 1⟩ ⟨1992, 0, 1⟩
        true "sp500").summary.averageAnnualReturn = 1373/100 ∧
    toFixed2 (specC4AverageAnnualReturn "sp500" ⟨1985, 0, 1⟩ ⟨1992, 0, 1⟩ * 100)
      = 57/5 ∧
    (1373/100 : ℚ) ≠ 57/5 := by
  have hv : (calculateCompoundInterestWithDates 100 [] ⟨1985, 0, 1⟩
        ⟨1992, 0, 1⟩ true "sp500").summary.averageAnnualReturn
      = toFixed2 (((avgYears "sp500" ⟨1985, 0, 1⟩ ⟨1992, 0, 1⟩).map
            (annualReturnUsed "sp500")).sum
          / ((avgYears "sp500" ⟨1985, 0, 1⟩ ⟨1992, 0, 1⟩).length : ℚ) * 100) :=
    rfl
  refine ⟨?_, ?_, by norm_num⟩
  · rw [hv]
    norm_num [avgYears, engineTableFor, engineTables, alookup, sp500Pairs,
      List.filter, annualReturnUsed, lookupOr, engineDefaultFor,
      marketIndicesAvg, toFixed2]
  · norm_num [specC4AverageAnnualReturn, List.range', annualReturnUsed,
      lookupOr, alookup, engineTableFor, engineTables, engineDefaultFor,
      marketIndicesAvg, sp500Pairs, toFixed2]

/-- C4 (amended): the engine averages only the tabulated years inside the
range; whenever the whole range `[startDate.year, endDate.year]` lies
within the tabulated span 1990–2024, this coincides with the claim's mean
over every calendar year of the range (same lookup as the walk, formatted
as a 2-decimal percentage). -/
theorem claim_C4_amended (p : ℚ) (txs : List Transaction) (u : Bool)
    (idx : String) (s e : SimDate)
    (h1 : 1990 ≤ s.year) (h2 : e.year ≤ 2024) (h3 : s.year ≤ e.year) :
    (calculateCompoundInterestWithDates p txs s e u idx).summary.averageAnnualReturn
      = toFixed2 (specC4AverageAnnualReturn idx s e * 100) := by
  have hv : (calculateCompoundInterestWithDates p txs s e u idx).summary.averageAnnualReturn
      = toFixed2 (((avgYears idx s e).map (annualReturnUsed idx)).sum
          / ((avgYears idx s e).length : ℚ) * 100) := rfl
  rw [hv, avgYears_eq idx s e h1 h2 h3]
  rfl

theorem claim_C4_amended_witness :
    (calculateCompoundInterestWithDates 500 [] ⟨1995, 3, 10⟩ ⟨1996, 7, 2⟩
        true "nasdaq").summary.averageAnnualReturn
      = toFixed2 (specC4AverageAnnualReturn "nasdaq" ⟨1995, 3, 10⟩
          ⟨1996, 7, 2⟩ * 100) :=
  claim_C4_amended 500 [] true "nasdaq" ⟨1995, 3, 10⟩ ⟨1996, 7, 2⟩
    (by decide) (by decide) (by decide)

/-- C6: a withdrawal subtracts exactly
`min(transaction.amount, max(0, currentAmount))` and records exactly that
amount in `totalWithdrawals`; from a nonnegative balance the balance stays
nonnegative, and an over-large request zeroes the balance recording the
pre-withdrawal balance; moreover the whole walk keeps the balance
nonnegative for nonnegative principal and transaction amounts. -/
theorem claim_C6 (s : WalkState) (t : Transaction)
    (ht : t.ttype = .withdrawal) (hc : 0 ≤ s.currentAmount) :
    ((applyTx s t).currentAmount
        = s.currentAmount - min t.amount (max 0 s.currentAmount) ∧
      (applyTx s t).totalWithdrawals
        = s.totalWithdrawals + min t.amount (max 0 s.currentAmount) ∧
      0 ≤ (applyTx s t).currentAmount ∧
      (s.currentAmount < t.amount →
        (applyTx s t).currentAmount = 0 ∧
        (applyTx s t).totalWithdrawals
          = s.totalWithdrawals + s.currentAmount)) ∧
    ∀ (mi : String) (n idx cnt : Nat) (s0 : WalkState)
        (txs : List Transaction),
      0 ≤ s0.currentAmount → (∀ u ∈ txs, 0 ≤ u.amount) →
      0 ≤ (runWalk mi n idx cnt s0 txs).2.2.currentAmount := by
  have hmax : max 0 s.currentAmount = s.currentAmount := max_eq_right hc
  constructor
  · refine ⟨by simp [applyTx, ht], by simp [applyTx, ht], ?_, ?_⟩
    · have hmin : min t.amount (max 0 s.currentAmount) ≤ s.currentAmount := by
        rw [hmax]; exact min_le_right _ _
      simp only [applyTx, ht]
      linarith
    · intro hlt
      have hmin : min t.amount (max 0 s.currentAmount) = s.currentAmount := by
        rw [hmax]; exact min_eq_right (le_of_lt hlt)
      constructor
      · simp only [applyTx, ht, hmin]
        ring
      · simp only [applyTx, ht, hmin]
  · exact fun mi n idx cnt s0 txs h1 h2 =>
      runWalk_final_nonneg mi n idx cnt s0 txs h1 h2

theorem claim_C6_witness :
    ((applyTx ⟨50, 50, 50, 0⟩ ⟨⟨2020, 0, 15⟩, 80, .withdrawal⟩).currentAmount
        = 50 - min 80 (max 0 (50 : ℚ)) ∧
      (applyTx ⟨50, 50, 50, 0⟩ ⟨⟨2020, 0, 15⟩, 80, .withdrawal⟩).totalWithdrawals
        = 0 + min 80 (max 0 (50 : ℚ)) ∧
      0 ≤ (applyTx ⟨50, 50, 50, 0⟩ ⟨⟨2020, 0, 15⟩, 80, .withdrawal⟩).currentAmount ∧
      ((50 : ℚ) < 80 →
        (applyTx ⟨50, 50, 50, 0⟩ ⟨⟨2020, 0, 15⟩, 80, .withdrawal⟩).currentAmount = 0 ∧
        (applyTx ⟨50, 50, 50, 0⟩ ⟨⟨2020, 0, 15⟩, 80, .withdrawal⟩).totalWithdrawals
          = 0 + 50)) ∧
    ∀ (mi : String) (n idx cnt : Nat) (s0 : WalkState)
        (txs : List Transaction),
      0 ≤ s0.currentAmount → (∀ u ∈ txs, 0 ≤ u.amount) →
      0 ≤ (runWalk mi n idx cnt s0 txs).2.2.currentAmount :=
  claim_C6 ⟨50, 50, 50, 0⟩ ⟨⟨2020, 0, 15⟩, 80, .withdrawal⟩ rfl (by norm_num)

/-- C7 (counterexample): with principal 10.006 and a 0.003 withdrawal in a
one-month window, the reported `netInvestment` (10.00) differs from the
difference of the reported `totalDeposits` (10.01) and `totalWithdrawals`
(0.00): the summary identity fails on the 2-decimal rounded values. -/
theorem claim_C7_counterexample :
    (calculateCompoundInterestWithDates (10006/1000)
        [⟨⟨2024, 0, 15⟩, 3/1000, .withdrawal⟩] ⟨2024, 0, 1⟩ ⟨2024, 0, 31⟩
        true "sp500").summary.netInvestment = 10 ∧
    (calculateCompoundInterestWithDates (10006/1000)
        [⟨⟨2024, 0, 15⟩, 3/1000, .withdrawal⟩] ⟨2024, 0, 1⟩ ⟨2024, 0, 31⟩
        true "sp500").summary.totalDeposits = 1001/100 ∧
    (calculateCompoundInterestWithDates (10006/1000)
        [⟨⟨2024, 0, 15⟩, 3/1000, .withdrawal⟩] ⟨2024, 0, 1⟩ ⟨2024, 0, 31⟩
        true "sp500").summary.totalWithdrawals = 0 ∧
    (calculateCompoundInterestWithDates (10006/1000)
        [⟨⟨2024, 0, 15⟩, 3/1000, .withdrawal⟩] ⟨2024, 0, 1⟩ ⟨2024, 0, 31⟩
        true "sp500").summary.netInvestment ≠
      (calculateCompoundInterestWithDates (10006/1000)
        [⟨⟨2024, 0, 15⟩, 3/1000, .withdrawal⟩] ⟨2024, 0, 1⟩ ⟨2024, 0, 31⟩
        true "sp500").summary.totalDeposits -
      (calculateCompoundInterestWithDates (10006/1000)
        [⟨⟨2024, 0, 15⟩, 3/1000, .withdrawal⟩] ⟨2024, 0, 1⟩ ⟨2024, 0, 31⟩
        true "sp500").summary.totalWithdrawals := by
  refine ⟨?_, ?_, ?_, ?_⟩ <;>
    norm_num [calculateCompoundInterestWithDates, runWalk, consumeMonth,
      monthsCount, monthIndex, sortTxs, insertTx, applyTx, dateKey,
      annualReturnUsed, lookupOr, alookup, engineTableFor, engineTables,
      engineDefaultFor, marketIndicesAvg, sp500Pairs, round2, min_def, max_def]

/-- C7 (amended): `summary.finalAmount` equals the `amount` of the last
monthly snapshot exactly; `summary.totalGains` and `summary.netInvestment`
are the roundings of the RAW differences `finalAmount − totalContributions`
and `totalDeposits − totalWithdrawals` (which can differ by a cent from the
differences of the rounded reported fields). -/
theorem claim_C7_amended (p : ℚ) (txs : List Transaction) (u : Bool)
    (idx : String) (s e : SimDate) (h : monthIndex s ≤ monthIndex e) :
    ((calculateCompoundInterestWithDates p txs s e u idx).monthlyData.getLast?).map
        MonthlyDataPoint.amount
      = some ((calculateCompoundInterestWithDates p txs s e u idx).summary.finalAmount) ∧
    (calculateCompoundInterestWithDates p txs s e u idx).summary.totalGains
      = round2 ((walkFinalState p txs s e idx).currentAmount -
          (walkFinalState p txs s e idx).totalContributions) ∧
    (calculateCompoundInterestWithDates p txs s e u idx).summary.netInvestment
      = round2 ((walkFinalState p txs s e idx).totalDeposits -
          (walkFinalState p txs s e idx).totalWithdrawals) ∧
    (calculateCompoundInterestWithDates p txs s e u idx).summary.finalAmount
      = round2 ((walkFinalState p txs s e idx).currentAmount) := by
  refine ⟨?_, rfl, rfl, rfl⟩
  have hml : (calculateCompoundInterestWithDates p txs s e u idx).monthlyData
      = (runWalk idx (monthsCount s e) (monthIndex s) 0
          ⟨p, p, p, 0⟩ (sortTxs txs)).1 := rfl
  have hfa : (calculateCompoundInterestWithDates p txs s e u idx).summary.finalAmount
      = round2 ((runWalk idx (monthsCount s e) (monthIndex s) 0
          ⟨p, p, p, 0⟩ (sortTxs txs)).2.2.currentAmount) := rfl
  rw [hml, hfa]
  exact runWalk_last_amount idx (monthsCount s e) (monthIndex s) 0
    ⟨p, p, p, 0⟩ (sortTxs txs) (by unfold monthsCount; omega)

theorem claim_C7_amended_witness :
    ((calculateCompoundInterestWithDates 100 [] ⟨2020, 0, 1⟩ ⟨2020, 1, 1⟩
          true "sp500").monthlyData.getLast?).map MonthlyDataPoint.amount
      = some ((calculateCompoundInterestWithDates 100 [] ⟨2020, 0, 1⟩
          ⟨2020, 1, 1⟩ true "sp500").summary.finalAmount) ∧
    (calculateCompoundInterestWithDates 100 [] ⟨2020, 0, 1⟩ ⟨2020, 1, 1⟩
        true "sp500").summary.totalGains
      = round2 ((walkFinalState 100 [] ⟨2020, 0, 1⟩ ⟨2020, 1, 1⟩ "sp500").currentAmount -
          (walkFinalState 100 [] ⟨2020, 0, 1⟩ ⟨2020, 1, 1⟩ "sp500").totalContributions) ∧
    (calculateCompoundInterestWithDates 100 [] ⟨2020, 0, 1⟩ ⟨2020, 1, 1⟩
        true "sp500").summary.netInvestment
      = round2 ((walkFinalState 100 [] ⟨2020, 0, 1⟩ ⟨2020, 1, 1⟩ "sp500").totalDeposits -
          (walkFinalState 100 [] ⟨2020, 0, 1⟩ ⟨2020, 1, 1⟩ "sp500").totalWithdrawals) ∧
    (calculateCompoundInterestWithDates 100 [] ⟨2020, 0, 1⟩ ⟨2020, 1, 1⟩
        true "sp500").summary.finalAmount
      = round2 ((walkFinalState 100 [] ⟨2020, 0, 1⟩ ⟨2020, 1, 1⟩ "sp500").currentAmount) :=
  claim_C7_amended 100 [] true "sp500" ⟨2020, 0, 1⟩ ⟨2020, 1, 1⟩ (by decide)

/-- C8 (counterexample): a transaction with the negative numeric amount −5
(date and type well-formed) PASSES the upstream filter and reaches the
engine with `amount = −5 ≤ 0`, refuting the claim that every delivered
transaction has `amount > 0`. -/
theorem claim_C8_counterexample :
    passesValidation ⟨some ⟨2020, 0, 15⟩, some (.num (-5)), some "deposit"⟩
      = true ∧
    validTransactions [⟨some ⟨2020, 0, 15⟩, some (.num (-5)), some "deposit"⟩]
      = [⟨⟨2020, 0, 15⟩, -5, .deposit⟩] ∧
    ¬(0 < (-5 : ℚ)) := by
  refine ⟨?_, ?_, by norm_num⟩
  · norm_num [passesValidation, JSAmount.truthy, JSAmount.parsed]
  · norm_num [validTransactions, passesValidation, JSAmount.truthy,
      JSAmount.parsed, parseTxType, List.filter, List.filterMap]

/-- C8 (amended): the upstream filter admits exactly the raw transactions
with a present date, a present truthy amount whose `parseFloat` is a
number, and a type equal to `deposit` or `withdrawal`.  It therefore drops
entries missing date/amount/type, with non-numeric amount, with a type
outside the two keywords, and (as the truthiness quirk) an amount equal to
the number 0 — but it does NOT enforce positivity: negative amounts and the
numeric string "0" pass through to the engine. -/
theorem claim_C8_amended (t : RawTransaction) :
    passesValidation t = true ↔
      (t.date.isSome ∧
       (∃ a, t.amount = some a ∧ a.truthy = true ∧ a.parsed.isSome) ∧
       (t.ttype = some "deposit" ∨ t.ttype = some "withdrawal")) := by
  rcases t with ⟨d, a, ty⟩
  cases a with
  | none => simp [passesValidation]
  | some aa =>
    cases ty with
    | none => simp [passesValidation]
    | some ts =>
      cases aa <;>
        simp [passesValidation, JSAmount.truthy, JSAmount.parsed,
          beq_iff_eq, Option.isSome] <;>
        tauto

/-- C9: for a recognized index and a year range with `startYear ≤ endYear`,
the market-series response holds exactly one entry per calendar year in the
inclusive range; entry `i` is the entry for year `startYear + i`, carrying
that year's tabulated return (or the index's default when absent) and the
fixed December-31 date; and `averageReturn` is the arithmetic mean of the
generated series. -/
theorem claim_C9 (idx : String) (sY eY : Nat)
    (h1 : recognizedIndex idx = true) (h2 : sY ≤ eY) :
    (generateRealisticMarketData idx sY eY).historicalData.length
      = eY + 1 - sY ∧
    (∀ i, i < eY + 1 - sY →
      (generateRealisticMarketData idx sY eY).historicalData[i]?
        = some (marketEntry idx (sY + i))) ∧
    (∀ y, (marketEntry idx y).ret
        = lookupOr (responderTableFor idx) (responderDefaultFor idx) y ∧
      (marketEntry idx y).dateMonth = 12 ∧ (marketEntry idx y).dateDay = 31) ∧
    (generateRealisticMarketData idx sY eY).averageReturn
      = ((generateRealisticMarketData idx sY eY).historicalData.map
          MarketEntry.ret).sum
        / ((generateRealisticMarketData idx sY eY).historicalData.length : ℚ) := by
  have hd : (generateRealisticMarketData idx sY eY).historicalData
      = marketLoop idx sY (eY + 1 - sY) := rfl
  refine ⟨?_, ?_, fun y => ⟨rfl, rfl, rfl⟩, rfl⟩
  · rw [hd]
    exact marketLoop_length idx (eY + 1 - sY) sY
  · intro i hi
    rw [hd]
    exact marketLoop_getElem idx (eY + 1 - sY) sY i hi

theorem claim_C9_witness :
    (generateRealisticMarketData "ftse100" 2020 2022).historicalData.length
      = 2022 + 1 - 2020 ∧
    (∀ i, i < 2022 + 1 - 2020 →
      (generateRealisticMarketData "ftse100" 2020 2022).historicalData[i]?
        = some (marketEntry "ftse100" (2020 + i))) ∧
    (∀ y, (marketEntry "ftse100" y).ret
        = lookupOr (responderTableFor "ftse100") (responderDefaultFor "ftse100") y ∧
      (marketEntry "ftse100" y).dateMonth = 12 ∧
      (marketEntry "ftse100" y).dateDay = 31) ∧
    (generateRealisticMarketData "ftse100" 2020 2022).averageReturn
      = ((generateRealisticMarketData "ftse100" 2020 2022).historicalData.map
          MarketEntry.ret).sum
        / ((generateRealisticMarketData "ftse100" 2020 2022).historicalData.length : ℚ) :=
  claim_C9 "ftse100" 2020 2022 (by decide) (by decide)
